import Mathlib

/-!
Verification of the ShutTUM dataset query engine (`StereoTUM/dataset.py`)
against its natural-language specification.

Timestamps are modelled as rationals (`ℚ`): the Python code uses
floating-point timestamps only through ordering comparisons, equality
tests and set operations, all of which the rational order models
faithfully.  A sensor sample is modelled by its timestamp alone, since
every property under study concerns only timestamps and presence or
absence of samples, never payloads.
-/

namespace ShutTUM

/-- A camera's shutter descriptor, as stored under the `shutter` key of a
camera entry in `params/params.yaml`: a shutter type string
(`"global"` or `"rolling"`) and the inter-row delay (`speed`). -/
structure Shutter where
  type : String
  speed : ℚ
deriving DecidableEq, Repr

/-- The parameters of one configured camera: its shutter descriptor and
its exposure limits (`exposure: {min, max}` in `params/params.yaml`). -/
structure CamParams where
  shutter : Shutter
  expMin : ℚ
  expMax : ℚ
deriving DecidableEq, Repr

/-- The in-memory state of one loaded dataset record, as built by
`Dataset.__init__`.

* `globalStream` / `rollingStream`: the timestamps (column 0) of the rows
  of `data/frames.csv` belonging to the global-shutter and to the
  rolling-shutter camera pair respectively; `frames.csv` holds both, and
  `self._frames[:,0]` is their multiset union (see `Dataset.frames`).
* `imuStream`: the timestamps of `data/imu.csv` (`self._imu[:,0]`).
* `gtStream`: the timestamps of `data/ground_truth.csv`
  (`self._ground_truth[:,0]`).
* `startTime`, `endTime`, `durationTime`: the `start`, `end` and
  `duration` entries of `params/time.yaml` (`self._time`).
* `cams`: the camera map `self._cams` built from `params/params.yaml`,
  an insertion-ordered association list of camera name to parameters. -/
structure Dataset where
  globalStream : List ℚ
  rollingStream : List ℚ
  imuStream : List ℚ
  gtStream : List ℚ
  startTime : ℚ
  endTime : ℚ
  durationTime : ℚ
  cams : List (String × CamParams)
deriving DecidableEq, Repr

/-- The timestamp column of `data/frames.csv` (`self._frames[:,0]`): the
rows of the global-shutter and the rolling-shutter camera pairs together. -/
def Dataset.frames (d : Dataset) : List ℚ :=
  d.globalStream ++ d.rollingStream

/-- The Timeline Index, `self._times`, built at load time as
`list(sorted(set(frames[:,0]) | set(imu[:,0]) | set(ground_truth[:,0])))`
(dataset.py line 102): deduplicate the concatenation of the three
timestamp columns, then sort ascending.  On a duplicate-free list over a
linear order every correct sort returns the same list, so modelling
Python's `sorted` by insertion sort is faithful. -/
def Dataset.times (d : Dataset) : List ℚ :=
  List.insertionSort (· ≤ ·) ((d.frames ++ d.imuStream ++ d.gtStream).dedup)

/-- A Query Result Record, the named tuple
`Data(global_, rolling, imu, groundtruth, stamp)` of dataset.py line 37.
Each modality field is `some` of the resolved sample's timestamp or
`none` for the explicit absent marker (Python `None`). -/
structure Data where
  global_ : Option ℚ
  rolling : Option ℚ
  imu : Option ℚ
  groundtruth : Option ℚ
  stamp : ℚ
deriving DecidableEq, Repr

/-- Modelled from the spec: the per-modality `extrapolate(value, method='exact')`
lookups of `StereoTUM.values` (`StereoImage.extrapolate`,
`ImuValue.extrapolate`, `GroundTruth.extrapolate`), whose source file is
not part of this excerpt.  Per the spec (§4.2), under policy `exact` the
modality field is set to the sample whose timestamp equals the queried
stamp exactly, and is absent if no sample shares that exact timestamp. -/
def extrapolateExact (stream : List ℚ) (t : ℚ) : Option ℚ :=
  if t ∈ stream then some t else none

/-- `Dataset._find_data_for(s)` (dataset.py lines 320-328): assemble one
Query Result Record at stamp `s`, resolving each of the four modalities
independently with the `exact` policy. -/
def Dataset.findDataFor (d : Dataset) (s : ℚ) : Data :=
  { stamp := s
    global_ := extrapolateExact d.globalStream s
    rolling := extrapolateExact d.rollingStream s
    imu := extrapolateExact d.imuStream s
    groundtruth := extrapolateExact d.gtStream s }

/-- The bound tests of the loop body of `Dataset._find_data_between`
(dataset.py lines 332-333): a timeline timestamp `t` is yielded unless
`start` is given and `t < start`, or `stop` is given and `t > stop`. -/
def matchesBounds (start stop : Option ℚ) (t : ℚ) : Bool :=
  (match start with
   | none => true
   | some a => ! decide (t < a)) &&
  (match stop with
   | none => true
   | some b => ! decide (t > b))

/-- `Dataset._find_data_between(start, stop)` (dataset.py lines 330-334):
walk the Timeline Index in order, skip timestamps failing a given bound's
test, and yield `_find_data_for(time)` for the rest.  The generator's
yields are modelled as the list of records produced by one full run. -/
def Dataset.findDataBetween (d : Dataset) (start stop : Option ℚ) : List Data :=
  (d.times.filter (matchesBounds start stop)).map d.findDataFor

/-- The argument of `Dataset.__getitem__`: either a single float stamp or
a slice object `start:stop:step` whose three parts may each be `None`. -/
inductive Index where
  | point (t : ℚ)
  | slice (start stop step : Option ℚ)
deriving DecidableEq, Repr

/-- The result of `Dataset.__getitem__`: a single record for a point
lookup, or the generator (modelled as a list) for a slice. -/
inductive QueryResult where
  | single (r : Data)
  | many (rs : List Data)
deriving DecidableEq, Repr

/-- `Dataset.__getitem__` (dataset.py lines 390-396): a slice with a
non-`None` step raises `ValueError` before any iteration; a slice with
default step delegates to `_find_data_between`; a float stamp delegates
to `_find_data_for`. -/
def Dataset.getitem (d : Dataset) (i : Index) : Except String QueryResult :=
  match i with
  | .point t => .ok (.single (d.findDataFor t))
  | .slice start stop step =>
    match step with
    | some _ => .error "Slicing a dataset with a step value is not supported"
    | none => .ok (.many (d.findDataBetween start stop))

/-- `Dataset.rolling_shutter_speed` (dataset.py lines 307-318): scan the
camera map in order, return the `speed` of the first camera whose shutter
type is `'rolling'`; raise `ValueError` when none is. -/
def Dataset.rollingShutterSpeed (d : Dataset) : Except String ℚ :=
  match d.cams.find? (fun c => c.2.shutter.type == "rolling") with
  | some c => .ok c.2.shutter.speed
  | none => .error "No cams had rolling shutter enabled!"

/-- `Dataset.exposure_limits` (dataset.py lines 262-280): return the
`{min, max}` exposure pair of the first configured camera; when the
camera map is empty the `for` loop body never runs and the property
implicitly returns `None`. -/
def Dataset.exposureLimits (d : Dataset) : Option (ℚ × ℚ) :=
  match d.cams with
  | [] => none
  | c :: _ => some (c.2.expMin, c.2.expMax)

/-- A concrete dataset used to witness the hypothesised theorems below,
following the scenario of spec §8 with integer-scaled timestamps
(×2: frames at 0, 2, 4, imu at 1, 3, ground truth at 2). -/
def sampleDataset : Dataset :=
  { globalStream := [0, 2, 4]
    rollingStream := [0, 2, 4]
    imuStream := [1, 3]
    gtStream := [2]
    startTime := 0
    endTime := 4
    durationTime := 4
    cams := [("cam1", ⟨⟨"global", 0⟩, 1, 32⟩), ("cam3", ⟨⟨"rolling", 1/10⟩, 1, 32⟩)] }

/- ### Helper lemmas -/

theorem times_sorted_le (d : Dataset) : d.times.Sorted (· ≤ ·) :=
  List.sorted_insertionSort _ _

theorem times_nodup (d : Dataset) : d.times.Nodup :=
  ((List.perm_insertionSort _ _).nodup_iff).mpr (List.nodup_dedup _)

theorem times_sorted_lt (d : Dataset) : d.times.Sorted (· < ·) :=
  (times_sorted_le d).lt_of_le (times_nodup d)

theorem mem_times_iff (d : Dataset) (t : ℚ) :
    t ∈ d.times ↔ t ∈ d.globalStream ∨ t ∈ d.rollingStream ∨
      t ∈ d.imuStream ∨ t ∈ d.gtStream := by
  unfold Dataset.times
  rw [(List.perm_insertionSort _ _).mem_iff, List.mem_dedup]
  simp [Dataset.frames, List.mem_append, or_assoc]

theorem matchesBounds_some_some (a b t : ℚ) :
    matchesBounds (some a) (some b) t = decide (a ≤ t ∧ t ≤ b) := by
  simp [matchesBounds, ← decide_not, not_lt]

theorem findDataBetween_stamps (d : Dataset) (start stop : Option ℚ) :
    (d.findDataBetween start stop).map Data.stamp =
      d.times.filter (matchesBounds start stop) := by
  unfold Dataset.findDataBetween
  have h : Data.stamp ∘ d.findDataFor = id := rfl
  rw [List.map_map, h, List.map_id]

/-- A dataset whose Timeline Index reaches below the metadata `start`
bound: timeline timestamps 1 and 3, metadata start 2. -/
def clampDataset : Dataset :=
  { globalStream := [1, 3]
    rollingStream := []
    imuStream := []
    gtStream := []
    startTime := 2
    endTime := 3
    durationTime := 1
    cams := [] }

/- ### Claims -/

/-- C1: for every loaded dataset, the Timeline Index `times` is sorted
strictly increasing (hence has no duplicate timestamps) and equals, as a
set, the union of the timestamps of all four sensor streams. -/
theorem timeline_index_correct (d : Dataset) :
    d.times.Sorted (· < ·) ∧ d.times.Nodup ∧
    ∀ t : ℚ, t ∈ d.times ↔ t ∈ d.globalStream ∨ t ∈ d.rollingStream ∨
      t ∈ d.imuStream ∨ t ∈ d.gtStream :=
  ⟨times_sorted_lt d, times_nodup d, mem_times_iff d⟩

/-- C2: the range query `dataset[start:stop]` with both bounds given
yields exactly the records for the Timeline Index timestamps `t` with
`start ≤ t ≤ stop` (both bounds inclusive, so a timestamp exactly equal
to `stop` is included and any greater one excluded), in ascending
timestamp order, each record being the exact-match point lookup at `t`;
when both bounds are open every timeline timestamp is yielded. -/
theorem range_query_inclusive_bounds (d : Dataset) (a b : ℚ) :
    d.findDataBetween (some a) (some b) =
      (d.times.filter (fun t => decide (a ≤ t ∧ t ≤ b))).map d.findDataFor ∧
    ((d.findDataBetween (some a) (some b)).map Data.stamp).Sorted (· < ·) ∧
    d.findDataBetween none none = d.times.map d.findDataFor := by
  refine ⟨?_, ?_, ?_⟩
  · unfold Dataset.findDataBetween
    congr 1
    exact List.filter_congr (fun t _ => matchesBounds_some_some a b t)
  · rw [findDataBetween_stamps]
    exact List.Pairwise.filter _ (times_sorted_lt d)
  · have h : matchesBounds none none = fun _ : ℚ => true := rfl
    simp [Dataset.findDataBetween, h]

/-- C3: the point query `dataset[t]` returns one Query Result Record and
never raises, for every timestamp `t` (also outside every stream's
observed range); a modality with no sample at exactly `t` appears as an
absent (`none`) field, never as an error. -/
theorem point_query_never_raises (d : Dataset) (t : ℚ) :
    d.getitem (.point t) = .ok (.single (d.findDataFor t)) ∧
    ((d.findDataFor t).global_ = none ↔ t ∉ d.globalStream) ∧
    ((d.findDataFor t).rolling = none ↔ t ∉ d.rollingStream) ∧
    ((d.findDataFor t).imu = none ↔ t ∉ d.imuStream) ∧
    ((d.findDataFor t).groundtruth = none ↔ t ∉ d.gtStream) := by
  refine ⟨rfl, ?_, ?_, ?_, ?_⟩ <;>
    simp [Dataset.findDataFor, extrapolateExact]

/-- C4: a slice request with any non-default (non-`None`) step fails
fast with the `ValueError` of dataset.py line 392, yielding no record. -/
theorem step_rejected (d : Dataset) (a b : Option ℚ) (s : ℚ) :
    d.getitem (.slice a b (some s)) =
      .error "Slicing a dataset with a step value is not supported" :=
  rfl

/-- C6: invoking the range query twice gives two identical sequences
(the embedding of `_find_data_between` is a pure function of the frozen
dataset state, so re-invocation restarts from the first timeline entry),
and the sequence is finite, bounded in length by the Timeline Index. -/
theorem range_query_restartable (d : Dataset) (a b : Option ℚ) :
    d.getitem (.slice a b none) = d.getitem (.slice a b none) ∧
    (d.findDataBetween a b).length ≤ d.times.length :=
  ⟨rfl, by simpa [Dataset.findDataBetween] using List.length_filter_le _ _⟩

/-- C7: for every timestamp `t` of the Timeline Index, the exact-match
point lookup resolves at least one of the four modality fields, since
`t` originated from some stream. -/
theorem exact_match_completeness (d : Dataset) (t : ℚ) (h : t ∈ d.times) :
    (d.findDataFor t).global_.isSome ∨ (d.findDataFor t).rolling.isSome ∨
    (d.findDataFor t).imu.isSome ∨ (d.findDataFor t).groundtruth.isSome := by
  rw [mem_times_iff] at h
  simp only [Dataset.findDataFor, extrapolateExact]
  rcases h with h | h | h | h
  · exact Or.inl (by simp [h])
  · exact Or.inr (Or.inl (by simp [h]))
  · exact Or.inr (Or.inr (Or.inl (by simp [h])))
  · exact Or.inr (Or.inr (Or.inr (by simp [h])))

/-- Witness for C7 at the sample dataset and timeline timestamp 1
(an IMU-only instant). -/
theorem exact_match_completeness_witness :
    (1 : ℚ) ∈ sampleDataset.times ∧
    ((sampleDataset.findDataFor 1).global_.isSome ∨
     (sampleDataset.findDataFor 1).rolling.isSome ∨
     (sampleDataset.findDataFor 1).imu.isSome ∨
     (sampleDataset.findDataFor 1).groundtruth.isSome) :=
  ⟨by decide, exact_match_completeness sampleDataset 1 (by decide)⟩

/-- C8: `rolling_shutter_speed` returns the configured inter-row delay
of a configured camera whose shutter type is `'rolling'` (the first in
map order), and fails with the `ValueError` of dataset.py line 318 when
no camera is configured with rolling shutter. -/
theorem rolling_shutter_speed_spec (d : Dataset) :
    ((∃ c ∈ d.cams, c.2.shutter.type = "rolling") →
      ∃ c ∈ d.cams, c.2.shutter.type = "rolling" ∧
        d.rollingShutterSpeed = .ok c.2.shutter.speed) ∧
    ((∀ c ∈ d.cams, c.2.shutter.type ≠ "rolling") →
      d.rollingShutterSpeed = .error "No cams had rolling shutter enabled!") := by
  constructor
  · intro hex
    unfold Dataset.rollingShutterSpeed
    have hne : d.cams.find? (fun c => c.2.shutter.type == "rolling") ≠ none := by
      intro hnone
      rw [List.find?_eq_none] at hnone
      obtain ⟨c, hc, hr⟩ := hex
      exact hnone c hc (by simpa using hr)
    obtain ⟨c, hc⟩ := Option.ne_none_iff_exists.mp hne
    refine ⟨c, List.mem_of_find?_eq_some hc.symm, ?_, by rw [← hc]⟩
    simpa using List.find?_some hc.symm
  · intro hall
    unfold Dataset.rollingShutterSpeed
    have h : d.cams.find? (fun c => c.2.shutter.type == "rolling") = none :=
      List.find?_eq_none.mpr (fun c hc => by simpa using hall c hc)
    rw [h]

/-- Witness for C8 at the sample dataset, whose second camera has
rolling shutter with delay 1/10. -/
theorem rolling_shutter_speed_witness :
    (∃ c ∈ sampleDataset.cams, c.2.shutter.type = "rolling") ∧
    (∃ c ∈ sampleDataset.cams, c.2.shutter.type = "rolling" ∧
      sampleDataset.rollingShutterSpeed = .ok c.2.shutter.speed) :=
  ⟨by decide, (rolling_shutter_speed_spec sampleDataset).1 (by decide)⟩

/-- C9: every Query Result Record carries a `stamp` field equal to the
timestamp it was queried at: the point lookup at `t` stamps its record
with `t`, and every record yielded by a range query is the point lookup
at its own stamp, a Timeline Index timestamp. -/
theorem stamp_equals_query_time (d : Dataset) (t : ℚ) (a b : Option ℚ) :
    (d.findDataFor t).stamp = t ∧
    ∀ r ∈ d.findDataBetween a b, r.stamp ∈ d.times ∧ r = d.findDataFor r.stamp := by
  refine ⟨rfl, ?_⟩
  intro r hr
  simp only [Dataset.findDataBetween, List.mem_map, List.mem_filter] at hr
  obtain ⟨t0, ⟨ht0, _⟩, rfl⟩ := hr
  exact ⟨ht0, rfl⟩

/-- Witness for C9 at the sample dataset: the first record of the full
range query is the point lookup at its own stamp. -/
theorem stamp_equals_query_time_witness :
    sampleDataset.findDataFor 0 ∈ sampleDataset.findDataBetween none none ∧
    ((sampleDataset.findDataFor 0).stamp ∈ sampleDataset.times ∧
     sampleDataset.findDataFor 0 =
       sampleDataset.findDataFor (sampleDataset.findDataFor 0).stamp) :=
  ⟨by decide,
   (stamp_equals_query_time sampleDataset 0 none none).2
     (sampleDataset.findDataFor 0) (by decide)⟩

/-- C10: with no camera configured, `exposure_limits` falls through its
`for` loop and returns `None` rather than raising; with at least one
camera it returns the first camera's `{min, max}` exposure pair. -/
theorem exposure_limits_spec (d : Dataset) :
    (d.cams = [] → d.exposureLimits = none) ∧
    (∀ n c rest, d.cams = (n, c) :: rest →
      d.exposureLimits = some (c.expMin, c.expMax)) := by
  constructor
  · intro h
    simp [Dataset.exposureLimits, h]
  · intro n c rest h
    simp [Dataset.exposureLimits, h]

/-- Witness for C10: the sample dataset's limits are those of its first
camera, and a camera-free dataset gets `none`. -/
theorem exposure_limits_witness :
    clampDataset.cams = [] ∧ clampDataset.exposureLimits = none ∧
    sampleDataset.exposureLimits = some (1, 32) :=
  ⟨rfl, (exposure_limits_spec clampDataset).1 rfl,
   (exposure_limits_spec sampleDataset).2 "cam1" ⟨⟨"global", 0⟩, 1, 32⟩ _ rfl⟩

/-- C5 (counterexample): on a dataset whose Timeline Index starts before
the metadata `start` bound, the open-start range query is NOT the closed
range query at the metadata start: `_find_data_between` merely skips the
absent bound's test and never consults `self._time`. -/
theorem open_bound_clamp_counterexample :
    clampDataset.findDataBetween none (some 10) ≠
      clampDataset.findDataBetween (some clampDataset.startTime) (some 10) := by
  decide

/-- C5 (amended): an open bound disables that bound's test, so the open
query coincides with the query closed at the metadata bound exactly when
the metadata bound does not cut the Timeline Index: if every timeline
timestamp is ≥ `start` then `dataset[None:b]` equals
`dataset[start:b]`, and if every timeline timestamp is ≤ `end` then
`dataset[a:None]` equals `dataset[a:end]`. -/
theorem open_bounds_clamp_amended (d : Dataset) (a b : Option ℚ) :
    ((∀ t ∈ d.times, d.startTime ≤ t) →
      d.findDataBetween none b = d.findDataBetween (some d.startTime) b) ∧
    ((∀ t ∈ d.times, t ≤ d.endTime) →
      d.findDataBetween a none = d.findDataBetween a (some d.endTime)) := by
  constructor
  · intro h
    unfold Dataset.findDataBetween
    congr 1
    refine List.filter_congr (fun t ht => ?_)
    simp [matchesBounds, not_lt.mpr (h t ht)]
  · intro h
    unfold Dataset.findDataBetween
    congr 1
    refine List.filter_congr (fun t ht => ?_)
    simp [matchesBounds, not_lt.mpr (h t ht)]

/-- Witness for the amended C5 at the sample dataset, whose metadata
bounds 0 and 4 enclose the whole Timeline Index. -/
theorem open_bounds_clamp_amended_witness :
    (∀ t ∈ sampleDataset.times, sampleDataset.startTime ≤ t) ∧
    sampleDataset.findDataBetween none (some 3) =
      sampleDataset.findDataBetween (some sampleDataset.startTime) (some 3) :=
  ⟨by decide,
   (open_bounds_clamp_amended sampleDataset none (some 3)).1 (by decide)⟩

end ShutTUM
